import Mathlib

/-!
Shallow embedding of the state-coordination core of the rickandmorty-graphql
tutorial app: the reactive storage in `src/config/apolloClient.ts`, the context
operations in `src/context/AppContext.tsx`, the pagination logic of
`src/components/CharacterList.tsx`, and the OTA update check in `src/App.tsx`.

Modelling conventions:
- A JavaScript `number | null` field is `Option Int` (`none` = null).
- A possibly-undefined value (`data` before the first query result) is an
  outer `Option`; `info?.x !== null` is false only when `info` is present and
  `x` is null, which the definitions reproduce branch by branch.
- JavaScript truthiness of a `number | null` (`if (info.prev)`) is
  `none ↦ false, some v ↦ v ≠ 0`.
- The reactive variable and the React state copy that `AppContext.tsx` keeps
  in sync with it are collapsed into one field, since every writer in the
  source updates both in the same handler.
-/

/-- Pagination metadata returned by the external source
(`data.characters.info` in `CharacterList.tsx`). -/
structure PageInfo where
  pages : Int
  next : Option Int
  prev : Option Int
deriving DecidableEq, Repr

/-- The `maxPages` constant of `CharacterList.tsx` ("Limit to 2 pages"). -/
def maxPages : Int := 2

/-- JavaScript truthiness of a `number | null` value: `null` and `0` are
falsy, every other number is truthy. -/
def jsTruthyInt : Option Int → Bool
  | none => false
  | some v => v != 0

/-- The app-wide state held by the reactive variables of `apolloClient.ts`
(mirrored into React state by `AppContext.tsx`). -/
structure AppState where
  favorites : List String
  searchFilter : String
  currentPage : Int
deriving DecidableEq, Repr

/-- Initial values of the three reactive variables: `[]`, `""`, `1`. -/
def initialState : AppState := ⟨[], "", 1⟩

/-- The `addFavorite` helper of `apolloClient.ts`: append `id` unless
`current.includes(id)`. -/
def addFavorite (id : String) (current : List String) : List String :=
  if id ∈ current then current else current ++ [id]

/-- The `removeFavorite` helper of `apolloClient.ts`:
`current.filter((i) => i !== id)`. -/
def removeFavorite (id : String) (current : List String) : List String :=
  current.filter (fun i => decide (i ≠ id))

/-- Iterated application of `addFavorite` with the same id, to speak about
"any number of additional add(id) calls". -/
def addIter (id : String) : Nat → List String → List String
  | 0, l => l
  | n + 1, l => addIter id n (addFavorite id l)

/-- `addToFavorites` of `AppContext.tsx` (wraps `addFavorite`). -/
def addToFavorites (id : String) (s : AppState) : AppState :=
  { s with favorites := addFavorite id s.favorites }

/-- `removeFromFavorites` of `AppContext.tsx` (wraps `removeFavorite`). -/
def removeFromFavorites (id : String) (s : AppState) : AppState :=
  { s with favorites := removeFavorite id s.favorites }

/-- `isFavorite` of `AppContext.tsx`: `favorites.includes(id)`. -/
def isFavorite (id : String) (s : AppState) : Bool :=
  decide (id ∈ s.favorites)

/-- `setSearchFilter` of `AppContext.tsx`: store the filter text and reset
the page to 1, unconditionally. -/
def setSearchFilter (filter : String) (s : AppState) : AppState :=
  { s with searchFilter := filter, currentPage := 1 }

/-- `setCurrentPage` of `AppContext.tsx`: store the page as given, with no
clamping or validation. -/
def setCurrentPage (page : Int) (s : AppState) : AppState :=
  { s with currentPage := page }

/-- The `searchFilter` read exposed by the context. -/
def getSearchFilter (s : AppState) : String := s.searchFilter

/-- The `currentPage` read exposed by the context. -/
def getCurrentPage (s : AppState) : Int := s.currentPage

/-- `hasNext` of `CharacterList.tsx`:
`info?.next !== null && currentPage < maxPages`. When `info` is undefined,
`info?.next` is `undefined` and `undefined !== null` is true. -/
def hasNext (info : Option PageInfo) (currentPage : Int) : Bool :=
  (match info with
   | none => true
   | some i => i.next.isSome) && decide (currentPage < maxPages)

/-- `hasPrev` of `CharacterList.tsx`: `info?.prev !== null`. -/
def hasPrev (info : Option PageInfo) : Bool :=
  match info with
  | none => true
  | some i => i.prev.isSome

/-- Render guard of the pagination controls in `CharacterList.tsx`:
`{info && (...)}` renders them only when `info` is present (an object is
always truthy). -/
def paginationRendered (info : Option PageInfo) : Bool :=
  info.isSome

/-- The Previous button `onPress` handler of `CharacterList.tsx`:
`if (hasPrev && info.prev) setCurrentPage(info.prev)`. The handler only
exists when `info` is present, so it takes a bare `PageInfo`. -/
def pressPrevious (info : PageInfo) (s : AppState) : AppState :=
  if hasPrev (some info) && jsTruthyInt info.prev then
    setCurrentPage (info.prev.getD s.currentPage) s
  else s

/-- The Next button `onPress` handler of `CharacterList.tsx`:
`if (hasNext && currentPage < maxPages) setCurrentPage(currentPage + 1)`. -/
def pressNext (info : PageInfo) (s : AppState) : AppState :=
  if hasNext (some info) s.currentPage && decide (s.currentPage < maxPages) then
    setCurrentPage (s.currentPage + 1) s
  else s

/-- States reachable from `initialState` by the UI operations, where each
retreat step consumes a `PageInfo` satisfying `P` (the external source is
otherwise unconstrained). -/
inductive ReachableP (P : PageInfo → Prop) : AppState → Prop where
  | init : ReachableP P initialState
  | next (info : PageInfo) {s : AppState} :
      ReachableP P s → ReachableP P (pressNext info s)
  | prev (info : PageInfo) {s : AppState} :
      P info → ReachableP P s → ReachableP P (pressPrevious info s)
  | search (t : String) {s : AppState} :
      ReachableP P s → ReachableP P (setSearchFilter t s)
  | addFav (id : String) {s : AppState} :
      ReachableP P s → ReachableP P (addToFavorites id s)
  | removeFav (id : String) {s : AppState} :
      ReachableP P s → ReachableP P (removeFromFavorites id s)

/-- Reachability with arbitrary `PageInfo` values from the source. -/
def Reachable : AppState → Prop :=
  ReachableP (fun _ => True)

/-- Well-behaved pagination metadata: every non-null `prev` value lies in
`[0, maxPages]` (a `prev` of 0 is falsy and hence ignored by the handler). -/
def goodPrev (info : PageInfo) : Prop :=
  ∀ p : Int, info.prev = some p → 0 ≤ p ∧ p ≤ maxPages

/-- C1: setSearchFilter(s) stores s as the filter and resets the page cursor
to 1 in the same update: afterwards getSearchFilter returns s and
getCurrentPage returns 1, for every string s and every prior page. -/
theorem setSearchFilter_stores_and_resets (s : String) (st : AppState) :
    getSearchFilter (setSearchFilter s st) = s ∧
    getCurrentPage (setSearchFilter s st) = 1 :=
  ⟨rfl, rfl⟩

/-- C10: the page reset in setSearchFilter is unconditional: it is not
guarded by a check that the text changed, so resubmitting the stored filter
text still resets the page cursor to 1. -/
theorem setSearchFilter_reset_unconditional (s : String) (st : AppState) :
    getCurrentPage (setSearchFilter s st) = 1 ∧
    getCurrentPage (setSearchFilter (getSearchFilter st) st) = 1 :=
  ⟨rfl, rfl⟩

/-- C2: with PageInfo present, canGoNext (hasNext) is true iff PageInfo.next
is not null and the current page is strictly below maxPages = 2; at current
page 2 it is false regardless of PageInfo.next. -/
theorem canGoNext_spec (info : PageInfo) (current : Int) :
    (hasNext (some info) current = true ↔
      (info.next ≠ none ∧ current < maxPages)) ∧
    hasNext (some info) 2 = false := by
  constructor
  · simp [hasNext, Option.isSome_iff_ne_none]
  · simp [hasNext, maxPages]

/-- C9: before any query result arrives (info undefined), hasPrev evaluates
to true and hasNext to (currentPage < maxPages), because
`undefined !== null` is true; and the pagination controls are rendered only
once info is present. -/
theorem undefined_info_booleans (current : Int) :
    hasPrev none = true ∧
    hasNext none current = decide (current < maxPages) ∧
    paginationRendered none = false ∧
    (∀ i : PageInfo, paginationRendered (some i) = true) := by
  refine ⟨rfl, by simp [hasNext], rfl, fun i => rfl⟩

/-- Helper: every step of the transition system, when each consumed
`PageInfo.prev` is null or in `[0, maxPages]`, keeps the page cursor in
`[1, maxPages]`. -/
theorem reachableP_goodPrev_bounds {s : AppState}
    (h : ReachableP goodPrev s) :
    1 ≤ s.currentPage ∧ s.currentPage ≤ maxPages := by
  induction h with
  | init => exact ⟨le_refl 1, by norm_num [initialState, maxPages]⟩
  | next info _ ih =>
    unfold pressNext
    split
    · rename_i hcond
      simp only [Bool.and_eq_true, decide_eq_true_eq] at hcond
      refine ⟨?_, ?_⟩
      · simp only [setCurrentPage, getCurrentPage]
        omega
      · simp only [setCurrentPage, getCurrentPage]
        omega
    · exact ih
  | prev info hgood _ ih =>
    unfold pressPrevious
    split
    · rename_i hcond
      simp only [Bool.and_eq_true] at hcond
      obtain ⟨-, htr⟩ := hcond
      unfold jsTruthyInt at htr
      cases hp : info.prev with
      | none => rw [hp] at htr; exact absurd htr (by simp)
      | some p =>
        rw [hp] at htr
        simp only [bne_iff_ne, ne_eq] at htr
        have hb := hgood p hp
        simp only [setCurrentPage, hp, Option.getD_some]
        constructor
        · omega
        · exact hb.2
    · exact ih
  | search t _ ih =>
    exact ⟨le_refl 1, by norm_num [setSearchFilter, maxPages]⟩
  | addFav id _ ih => exact ih
  | removeFav id _ ih => exact ih

/-- C3 counterexample: the invariant `1 ≤ current ≤ maxPages` does not hold
in every state reachable with arbitrary PageInfo: a retreat consuming
`PageInfo.prev = 3` drives the cursor to 3 > maxPages one step from the
initial state, because setCurrentPage performs no clamping. -/
theorem pageCursor_invariant_cex :
    Reachable (pressPrevious ⟨3, some 2, some 3⟩ initialState) ∧
    getCurrentPage (pressPrevious ⟨3, some 2, some 3⟩ initialState) = 3 ∧
    ¬ getCurrentPage (pressPrevious ⟨3, some 2, some 3⟩ initialState) ≤ maxPages := by
  refine ⟨ReachableP.prev _ trivial ReachableP.init, by decide, by decide⟩

/-- C3 amended: in every state reachable from the initial state by advance,
retreat, setSearchFilter and the favorites operations, the invariant
`1 ≤ current ≤ maxPages` holds provided every non-null `PageInfo.prev`
consumed by a retreat lies in `[0, maxPages]` (a prev of 0 being discarded
by the handler's truthiness test); setCurrentPage itself performs no
clamping, so the bound rests entirely on the callers and this hypothesis. -/
theorem pageCursor_invariant (s : AppState) (h : ReachableP goodPrev s) :
    1 ≤ getCurrentPage s ∧ getCurrentPage s ≤ maxPages :=
  reachableP_goodPrev_bounds h

/-- Witness for C3 amended at the initial state. -/
theorem pageCursor_invariant_witness :
    1 ≤ getCurrentPage initialState ∧ getCurrentPage initialState ≤ maxPages :=
  pageCursor_invariant initialState ReachableP.init

/-- C5: when canGoNext (hasNext) holds, the Next handler sets the cursor to
exactly current + 1; when it is false, the press is a no-op leaving the
whole state unchanged. -/
theorem advance_spec (info : PageInfo) (s : AppState) :
    (hasNext (some info) s.currentPage = true →
      getCurrentPage (pressNext info s) = getCurrentPage s + 1) ∧
    (hasNext (some info) s.currentPage = false → pressNext info s = s) := by
  constructor
  · intro h
    have hlt : decide (s.currentPage < maxPages) = true := by
      unfold hasNext at h
      simp only [Bool.and_eq_true] at h
      exact h.2
    unfold pressNext
    rw [h, hlt]
    rfl
  · intro h
    unfold pressNext
    rw [h]
    rfl

/-- Witness for C5: at page 1 with next = 2, advance yields page 2; at a
state where hasNext is false, the press leaves the state unchanged. -/
theorem advance_spec_witness :
    getCurrentPage (pressNext ⟨2, some 2, none⟩ initialState) =
      getCurrentPage initialState + 1 ∧
    pressNext ⟨2, none, some 1⟩ (setCurrentPage 2 initialState) =
      setCurrentPage 2 initialState :=
  ⟨(advance_spec ⟨2, some 2, none⟩ initialState).1 (by decide),
   (advance_spec ⟨2, none, some 1⟩ (setCurrentPage 2 initialState)).2 (by decide)⟩

/-- C4 counterexample: with `PageInfo.prev = 0`, canGoPrev (hasPrev, i.e.
prev is not null) holds, yet the Previous handler is a no-op because the
guard `hasPrev && info.prev` tests JavaScript truthiness and 0 is falsy: the
cursor stays at 2 instead of being set to the source-reported 0. -/
theorem retreat_cex :
    hasPrev (some ⟨3, some 3, some 0⟩) = true ∧
    pressPrevious ⟨3, some 3, some 0⟩ (setCurrentPage 2 initialState) =
      setCurrentPage 2 initialState ∧
    getCurrentPage (pressPrevious ⟨3, some 3, some 0⟩ (setCurrentPage 2 initialState)) ≠ 0 := by
  refine ⟨by decide, by decide, by decide⟩

/-- C4 amended: when canGoPrev holds and the source-reported PageInfo.prev
is non-zero, the Previous handler sets the cursor to exactly that reported
value (not a locally computed decrement); when PageInfo.prev is null — as at
page 1 — or 0, the press is a no-op leaving the state unchanged. -/
theorem retreat_spec (info : PageInfo) (s : AppState) :
    (∀ p : Int, info.prev = some p → p ≠ 0 →
      getCurrentPage (pressPrevious info s) = p) ∧
    (info.prev = none → pressPrevious info s = s) ∧
    (info.prev = some 0 → pressPrevious info s = s) := by
  refine ⟨?_, ?_, ?_⟩
  · intro p hp hne
    unfold pressPrevious
    have h1 : hasPrev (some info) = true := by
      simp [hasPrev, hp]
    have h2 : jsTruthyInt info.prev = true := by
      unfold jsTruthyInt
      rw [hp]
      simpa using hne
    rw [h1, h2]
    simp [setCurrentPage, getCurrentPage, hp]
  · intro hp
    unfold pressPrevious
    rw [show jsTruthyInt info.prev = false from by rw [hp]; rfl]
    simp
  · intro hp
    unfold pressPrevious
    rw [show jsTruthyInt info.prev = false from by rw [hp]; rfl]
    simp

/-- Witness for C4 amended: retreating from page 2 with prev = 1 lands on
page 1, retreating with prev = null is a no-op, and retreating from page 2
with prev = 0 is a no-op. -/
theorem retreat_spec_witness :
    getCurrentPage (pressPrevious ⟨2, none, some 1⟩ (setCurrentPage 2 initialState)) = 1 ∧
    pressPrevious ⟨2, some 2, none⟩ initialState = initialState ∧
    pressPrevious ⟨2, some 2, some 0⟩ (setCurrentPage 2 initialState) =
      setCurrentPage 2 initialState :=
  ⟨(retreat_spec ⟨2, none, some 1⟩ (setCurrentPage 2 initialState)).1 1 rfl (by decide),
   (retreat_spec ⟨2, some 2, none⟩ initialState).2.1 rfl,
   (retreat_spec ⟨2, some 2, some 0⟩ (setCurrentPage 2 initialState)).2.2 rfl⟩

/-- Helper: the added id is a member after addFavorite. -/
theorem mem_addFavorite (id : String) (l : List String) : id ∈ addFavorite id l := by
  unfold addFavorite
  split
  · assumption
  · simp

/-- Helper: addFavorite is a no-op when the id is already present. -/
theorem addFavorite_of_mem (id : String) (l : List String) (h : id ∈ l) :
    addFavorite id l = l := by
  simp [addFavorite, h]

/-- Helper: iterating addFavorite on a list already containing the id
changes nothing. -/
theorem addIter_of_mem (id : String) (n : Nat) (l : List String) (h : id ∈ l) :
    addIter id n l = l := by
  induction n with
  | zero => rfl
  | succ n ih =>
    unfold addIter
    rw [addFavorite_of_mem id l h]
    exact ih

/-- Helper: addFavorite brings the occurrence count of the id to exactly 1
when it was at most 1. -/
theorem count_addFavorite (id : String) (l : List String) (h : l.count id ≤ 1) :
    (addFavorite id l).count id = 1 := by
  unfold addFavorite
  split
  · rename_i hmem
    have h1 : 0 < l.count id := List.count_pos_iff.mpr hmem
    omega
  · rename_i hmem
    have h0 : l.count id = 0 := List.count_eq_zero.mpr hmem
    rw [List.count_append, h0]
    simp

/-- Helper: addFavorite preserves the no-duplicates property. -/
theorem nodup_addFavorite (id : String) (l : List String) (h : l.Nodup) :
    (addFavorite id l).Nodup := by
  unfold addFavorite
  split
  · exact h
  · rename_i hmem
    have disj : l.Disjoint [id] := by
      intro a ha hb
      rw [List.mem_singleton] at hb
      subst hb
      exact hmem ha
    exact h.append (List.nodup_singleton id) disj

/-- C6: add(id) inserts id only when absent and is a no-op when present;
after add(id) followed by any number of further add(id) calls the favorites
list holds exactly one occurrence of id, contains it, and stays free of
duplicates. -/
theorem add_no_duplicates (id : String) (l : List String) :
    (id ∈ l → addFavorite id l = l) ∧
    (id ∉ l → addFavorite id l = l ++ [id]) ∧
    (l.count id ≤ 1 → ∀ n : Nat,
      (addIter id n (addFavorite id l)).count id = 1 ∧
      id ∈ addIter id n (addFavorite id l)) ∧
    (l.Nodup → ∀ n : Nat, (addIter id n (addFavorite id l)).Nodup) := by
  refine ⟨addFavorite_of_mem id l, ?_, ?_, ?_⟩
  · intro hmem
    simp [addFavorite, hmem]
  · intro hc n
    rw [addIter_of_mem id n _ (mem_addFavorite id l)]
    exact ⟨count_addFavorite id l hc, mem_addFavorite id l⟩
  · intro hnd n
    rw [addIter_of_mem id n _ (mem_addFavorite id l)]
    exact nodup_addFavorite id l hnd

/-- Witness for C6 on the empty favorites list with two extra add calls. -/
theorem add_no_duplicates_witness :
    addFavorite "1" [] = [] ++ ["1"] ∧
    (addIter "1" 2 (addFavorite "1" [])).count "1" = 1 ∧
    (addIter "1" 2 (addFavorite "1" [])).Nodup :=
  ⟨(add_no_duplicates "1" []).2.1 (by decide),
   ((add_no_duplicates "1" []).2.2.1 (by decide) 2).1,
   (add_no_duplicates "1" []).2.2.2 List.nodup_nil 2⟩

/-- Helper: the removed id is never a member after removeFavorite. -/
theorem not_mem_removeFavorite (id : String) (l : List String) :
    id ∉ removeFavorite id l := by
  simp [removeFavorite]

/-- Helper: removeFavorite leaves the occurrence count of every other id
unchanged. -/
theorem count_removeFavorite_ne (id j : String) (l : List String) (hj : j ≠ id) :
    (removeFavorite id l).count j = l.count j := by
  induction l with
  | nil => rfl
  | cons a t ih =>
    by_cases ha : a = id
    · subst ha
      simp [removeFavorite, List.filter_cons, List.count_cons] at ih ⊢
      simp [ih, Ne.symm hj]
    · simp [removeFavorite, List.filter_cons, List.count_cons, ha] at ih ⊢
      simp [ih]

/-- C7: remove(id) drops id when present and leaves every other member's
occurrences unchanged; on an absent id it leaves the list entirely
unchanged; and add(id) followed by remove(id) leaves contains(id) false. -/
theorem remove_spec (id : String) (l : List String) (s : AppState) :
    id ∉ removeFavorite id l ∧
    (∀ j : String, j ≠ id → (removeFavorite id l).count j = l.count j) ∧
    (id ∉ l → removeFavorite id l = l) ∧
    isFavorite id (removeFromFavorites id (addToFavorites id s)) = false := by
  refine ⟨not_mem_removeFavorite id l, ?_, ?_, ?_⟩
  · intro j hj
    exact count_removeFavorite_ne id j l hj
  · intro hmem
    rw [removeFavorite, List.filter_eq_self.mpr]
    intro a ha
    simp only [decide_eq_true_eq]
    exact fun he => hmem (he ▸ ha)
  · simp only [isFavorite, removeFromFavorites, addToFavorites,
      decide_eq_false_iff_not]
    exact not_mem_removeFavorite id _

/-- Witness for C7: removing "2" from ["1"] is the identity, and adding then
removing "1" leaves it out of the favorites. -/
theorem remove_spec_witness :
    removeFavorite "2" ["1"] = ["1"] ∧
    ("3" : String) ≠ "2" ∧ (removeFavorite "2" ["1"]).count "3" = (["1"] : List String).count "3" ∧
    isFavorite "1" (removeFromFavorites "1" (addToFavorites "1" initialState)) = false :=
  ⟨(remove_spec "2" ["1"] initialState).2.2.1 (by decide),
   by decide,
   (remove_spec "2" ["1"] initialState).2.1 "3" (by decide),
   (remove_spec "1" ["1"] initialState).2.2.2⟩

/-- Result object of `Updates.checkForUpdateAsync()` as used by `App.tsx`. -/
structure UpdateCheckResult where
  isAvailable : Bool
deriving DecidableEq, Repr

/-- Outcomes of the three awaited OTA calls in `App.tsx`, supplied by the
environment: each either succeeds or throws (`Except.error`). -/
structure UpdateEnv where
  dev : Bool
  checkResult : Except String UpdateCheckResult
  fetchResult : Except String Unit
  reloadResult : Except String Unit

/-- The three external OTA calls `App.tsx` can perform. -/
inductive OtaCall where
  | check
  | fetch
  | reload
deriving DecidableEq, Repr

/-- Body of the `try` block of `checkForUpdates` in `App.tsx`: await the
check; if `update.isAvailable`, await the fetch and then the reload. Returns
the calls performed in order, and the error if one of them threw. -/
def otaBody (env : UpdateEnv) : List OtaCall × Option String :=
  match env.checkResult with
  | .error e => ([.check], some e)
  | .ok u =>
    if u.isAvailable then
      match env.fetchResult with
      | .error e => ([.check, .fetch], some e)
      | .ok _ =>
        match env.reloadResult with
        | .error e => ([.check, .fetch, .reload], some e)
        | .ok _ => ([.check, .fetch, .reload], none)
    else ([.check], none)

/-- `checkForUpdates` of `App.tsx`: return immediately in development mode
(`__DEV__`); otherwise run the body under `try/catch`, where the catch
merely logs, so no error escapes (the second component is the escaping
error, always `none`). -/
def checkForUpdates (env : UpdateEnv) : List OtaCall × Option String :=
  if env.dev then ([], none)
  else
    ((otaBody env).1, none)

/-- C8: the whole OTA sequence is skipped in development mode; no failure of
check, fetch or reload ever escapes (the catch swallows it, so the app keeps
running the loaded code); fetch is performed only after the check succeeded
with isAvailable true; and reload only after such a check plus a successful
fetch. -/
theorem checkForUpdates_spec (env : UpdateEnv) :
    (env.dev = true → checkForUpdates env = ([], none)) ∧
    (checkForUpdates env).2 = none ∧
    (OtaCall.fetch ∈ (checkForUpdates env).1 →
      env.dev = false ∧
      ∃ u : UpdateCheckResult, env.checkResult = Except.ok u ∧ u.isAvailable = true) ∧
    (OtaCall.reload ∈ (checkForUpdates env).1 →
      env.fetchResult = Except.ok () ∧
      ∃ u : UpdateCheckResult, env.checkResult = Except.ok u ∧ u.isAvailable = true) := by
  obtain ⟨dev, chk, fet, rel⟩ := env
  refine ⟨?_, ?_, ?_, ?_⟩
  · intro h
    simp only at h
    subst h
    simp [checkForUpdates]
  · cases dev <;> simp [checkForUpdates]
  · intro hmem
    cases dev with
    | true => simp [checkForUpdates] at hmem
    | false =>
      refine ⟨rfl, ?_⟩
      simp only [checkForUpdates, Bool.false_eq_true, if_false] at hmem
      cases chk with
      | error e => simp [otaBody] at hmem
      | ok u =>
        cases hAv : u.isAvailable with
        | true => exact ⟨u, rfl, hAv⟩
        | false => simp [otaBody, hAv] at hmem
  · intro hmem
    cases dev with
    | true => simp [checkForUpdates] at hmem
    | false =>
      simp only [checkForUpdates, Bool.false_eq_true, if_false] at hmem
      cases chk with
      | error e => simp [otaBody] at hmem
      | ok u =>
        cases hAv : u.isAvailable with
        | true =>
          cases fet with
          | error e => simp [otaBody, hAv] at hmem
          | ok v => exact ⟨rfl, u, rfl, hAv⟩
        | false => simp [otaBody, hAv] at hmem

/-- Witness for C8 at a concrete environment: in dev mode nothing runs, and
in a production run with an available update the fetch evidence applies. -/
theorem checkForUpdates_spec_witness :
    checkForUpdates ⟨true, Except.ok ⟨true⟩, Except.ok (), Except.ok ()⟩ = ([], none) ∧
    ((false : Bool) = false ∧
      ∃ u : UpdateCheckResult,
        (Except.ok ⟨true⟩ : Except String UpdateCheckResult) = Except.ok u ∧
        u.isAvailable = true) :=
  ⟨(checkForUpdates_spec ⟨true, Except.ok ⟨true⟩, Except.ok (), Except.ok ()⟩).1 rfl,
   (checkForUpdates_spec ⟨false, Except.ok ⟨true⟩, Except.ok (), Except.ok ()⟩).2.2.1
     (by decide)⟩

/-- Witness for C2 at page 1 and page 2 with next = 2. -/
theorem canGoNext_spec_witness :
    hasNext (some ⟨2, some 2, none⟩) 1 = true ∧
    hasNext (some ⟨2, some 2, none⟩) 2 = false :=
  ⟨(canGoNext_spec ⟨2, some 2, none⟩ 1).1.mpr ⟨by decide, by decide⟩,
   (canGoNext_spec ⟨2, some 2, none⟩ 1).2⟩
